import Mathlib

/-!
A shallow embedding of process.py (pyproc): command-line and environment
preparation (Program), the supervised child-process machinery (Process,
TimeoutProcess, CallbackProcess) and the helper run_with_timeout.
External collaborators (the shlex tokenizer, Popen, os.kill, select,
time.sleep) are modelled by explicit oracles or small semantic functions;
the control flow of the repository's own code is translated line by line.
Timestamps are integers; pauses and sleeps do not affect any embedded
result and are elided.
-/

namespace PyProc

/-- Python-level exceptions distinguished by the embedding.  processError
covers ProcessError and its message; osError carries the errno of an
OSError re-raised out of send_signal. -/
inductive PyErr where
  | typeError (kw : String)
  | indexError
  | attributeError
  | processError (msg : String)
  | cannotKill
  | timedOut
  | callbackFailed
  | osError (code : Nat)
deriving DecidableEq, Repr

/-- An environment mapping, as an association list of variable bindings;
lookup takes the first binding for a key. -/
abbrev Env := List (String × String)

/-- Dictionary lookup in an environment mapping. -/
def envLookup : Env → String → Option String
  | [], _ => none
  | (k, v) :: rest, key => if k = key then some v else envLookup rest key

/-- Python dict(base) followed by .update(ov): bindings of ov win, bindings
of base whose key is not overridden survive. -/
def dictUpdate (base ov : Env) : Env :=
  base.filter (fun p => (envLookup ov p.1).isNone) ++ ov

/-- Python truthiness of the env argument of Program.__init__: None and the
empty dict are both falsy. -/
def envTruthy : Option Env → Bool
  | none => false
  | some e => !e.isEmpty

/-- Popen environment semantics: env=None inherits the host environment
unchanged, otherwise the given mapping is the entire child environment. -/
def popenChildEnv (host : Env) : Option Env → Env
  | none => host
  | some e => e

/-- Whitespace characters for shell word splitting. -/
def isWS (c : Char) : Bool := c = ' ' || c = '\t' || c = '\n' || c = '\r'

/-- Worker for shlexSplit: chars still to scan, current word reversed. -/
def splitWords : List Char → List Char → List String
  | [], cur => if cur.isEmpty then [] else [String.mk cur.reverse]
  | c :: rest, cur =>
    if isWS c then
      if cur.isEmpty then splitWords rest []
      else String.mk cur.reverse :: splitWords rest []
    else splitWords rest (c :: cur)

/-- Modelling the external tokenizer collaborator (shlex.split, called on
line 52 of the source): shell word splitting on whitespace.  Quoting and
escaping are not modelled; no claim depends on them, only on which strings
produce an empty argument vector and on plain space-separated words. -/
def shlexSplit (s : String) : List String := splitWords s.data []

/-- The fields Program.__init__ stores. -/
structure Program where
  args : List String
  env : Option Env
  cmdline : String
  exe : String
deriving DecidableEq, Repr

/-- Lines 53-58 of Program.__init__: the effective environment stored for
the child.  A truthy env (present and non-empty) with update_env merges the
host environment with the overrides; otherwise the env argument itself
(None, or the override mapping, empty or not) is stored. -/
def effectiveEnv (host : Env) (env : Option Env) (update_env : Bool) : Option Env :=
  if envTruthy env && update_env then some (dictUpdate host (env.getD [])) else env

/-- Program.__init__ (lines 51-62).  exeExists and exeExec are the
os.path.exists and os.access oracles used by _strict_checks.  args[0] on an
empty argument vector raises a bare IndexError, before any strict
validation runs; _strict_checks raises ProcessError. -/
def Program.init (host : Env) (exeExists exeExec : String → Bool) (cmdline : String)
    (env : Option Env) (update_env strict : Bool) : Except PyErr Program :=
  match shlexSplit cmdline with
  | [] => .error .indexError
  | exe :: rest =>
    let p : Program :=
      { args := exe :: rest, env := effectiveEnv host env update_env,
        cmdline := cmdline, exe := exe }
    if strict then
      if !exeExists exe then .error (.processError "Cannot find executable")
      else if !exeExec exe then .error (.processError "Permission denied to exec")
      else .ok p
    else .ok p

/-- Parameter names of Process.__init__ after self, as written on line 79
of the source. -/
def processInitParams : List String := ["prog", "stdout", "stderr", "stdin"]

/-- Python keyword-argument binding: a call supplying a keyword k to a
function that has no parameter named k raises TypeError (unexpected
keyword argument k). -/
def bindKeywords (params kwargs : List String) : Except PyErr Unit :=
  match kwargs.find? (fun k => !params.contains k) with
  | some k => .error (.typeError k)
  | none => .ok ()

/-- run_with_timeout (lines 302-319).  The source constructs
Process(p, timeout=timeout) although Process.__init__ has no parameter
named timeout, so the construction raises TypeError for every input; the
rest of the body (gather_output and building the (out, err, status) tuple)
is unreachable, and the final arm below can never be taken. -/
def run_with_timeout (host : Env) (cmdline : String) (env : Option Env)
    (_timeout : Option Int) : Except PyErr (String × String × Int) :=
  match Program.init host (fun _ => true) (fun _ => true) cmdline env true false with
  | .error e => .error e
  | .ok _p =>
    match bindKeywords processInitParams ["timeout"] with
    | .error e => .error e
    | .ok _ => .error (.typeError "timeout")

/-- Whether an embedded run produced a result rather than an exception. -/
def exceptIsOk {α : Type} : Except PyErr α → Bool
  | .ok _ => true
  | .error _ => false

/-- What the loop of gather_output observes on one iteration: which piped
streams select reported readable, the chunk a read on each would return,
the result of chk_term, and the result of _periodic_status_checks (the base
class always answers true; subclasses override it). -/
structure Tick where
  rdOut : Bool
  rdErr : Bool
  outChunk : String
  errChunk : String
  term : Bool
  check : Bool
deriving DecidableEq, Repr

/-- How the gather_output loop ended: termination observed, or a periodic
check told it to stop. -/
inductive LoopExit where
  | terminated
  | stopped
deriving DecidableEq, Repr

/-- The while-loop of Process.gather_output (lines 119-139) over an oracle
trace of ticks.  outPiped and errPiped say whether stdout and stderr were
launched as captured pipes (proc.stdout and proc.stderr are None
otherwise).  select only ever reports descriptors that were put in
read_fds, hence the piped guards on the reads.  When chk_term reports
termination the source reads proc.stdout and then proc.stderr
unconditionally; on a stream that is not a captured pipe that attribute is
None and .read() raises AttributeError (the stdout read comes first).
finalOut and finalErr are the bytes those two final reads return.  A trace
that runs out means the loop is still running (third component none). -/
def gatherLoop (outPiped errPiped : Bool) (finalOut finalErr : String) :
    List Tick → String → String → Except PyErr (String × String × Option LoopExit)
  | [], so, se => .ok (so, se, none)
  | t :: rest, so, se =>
    let so2 := if outPiped && t.rdOut then so ++ t.outChunk else so
    let se2 := if errPiped && t.rdErr then se ++ t.errChunk else se
    if t.term then
      if outPiped then
        if errPiped then .ok (so2 ++ finalOut, se2 ++ finalErr, some .terminated)
        else .error .attributeError
      else .error .attributeError
    else if t.check then gatherLoop outPiped errPiped finalOut finalErr rest so2 se2
    else .ok (so2, se2, some .stopped)

/-- Process.gather_output (lines 104-139): start the child, reset both
buffers to empty, then run the loop. -/
def gather_output (outPiped errPiped : Bool) (finalOut finalErr : String)
    (trace : List Tick) : Except PyErr (String × String × Option LoopExit) :=
  gatherLoop outPiped errPiped finalOut finalErr trace "" ""

/-- Result of kill_process, with the number of SIGKILLs that were sent. -/
inductive KillResult where
  | dead (sigkills : Nat)
  | cannotKill (sigkills : Nat)
deriving DecidableEq, Repr

/-- The SIGKILL retry loop of kill_process (lines 171-177).  polls is the
oracle sequence of chk_term results, idx the index of the next liveness
check, sent the number of SIGKILLs sent so far.  remaining stands for
kill_lim + 1 - ctr, so the source's ctr > kill_lim test after a send is
remaining = 0 here.  kill_process enters the loop with
remaining = kill_lim + 1 which is at least 1, so the 0 pattern below is
never reached from kill_process. -/
def killLoop (polls : Nat → Bool) (idx sent : Nat) : Nat → KillResult
  | 0 => .cannotKill sent
  | remaining + 1 =>
    if polls idx then .dead sent
    else if remaining = 0 then .cannotKill (sent + 1)
    else killLoop polls (idx + 1) (sent + 1) remaining

/-- Process.kill_process (lines 157-177): chk_term, sleep termpause,
chk_term, SIGTERM, sleep killpause, chk_term, then the SIGKILL retry loop.
The pauses do not affect the embedded result; polls i is the result of the
i-th chk_term call of this invocation. -/
def kill_process (polls : Nat → Bool) (kill_lim : Nat) : KillResult :=
  if polls 0 then .dead 0
  else if polls 1 then .dead 0
  else if polls 2 then .dead 0
  else killLoop polls 3 0 (kill_lim + 1)

/-- Outcome of the os.kill system call. -/
inductive KillSyscall where
  | ok
  | err (code : Nat)
deriving DecidableEq, Repr

/-- errno.ESRCH: no such process. -/
def ESRCH : Nat := 3

/-- Process.send_signal (lines 186-197): os.kill; an OSError with errno
ESRCH yields False, any other OSError is re-raised, success yields True. -/
def send_signal (osKill : KillSyscall) : Except PyErr Bool :=
  match osKill with
  | .ok => .ok true
  | .err e => if e ≠ ESRCH then .error (.osError e) else .ok false

/-- The cached returncode field of the Popen object. -/
structure PopenState where
  returncode : Option Int
deriving DecidableEq, Repr

/-- Popen.poll semantics: return the cached returncode when it is already
set; otherwise consult the OS (osAns is the exit code the non-blocking
wait reports now, if the child has exited), caching a successful answer.
The single underlying OS wait thus fires at most once. -/
def popenPoll (osAns : Option Int) (p : PopenState) : PopenState × Option Int :=
  match p.returncode with
  | some c => (p, some c)
  | none =>
    match osAns with
    | some c => ({ returncode := some c }, some c)
    | none => (p, none)

/-- The fields of Process that chk_term touches. -/
structure ProcState where
  popen : PopenState
  exit_status : Option Int
deriving DecidableEq, Repr

/-- Process.chk_term (lines 179-184): when proc.poll() is not None, store
proc.returncode into exit_status and return True, else return False. -/
def chk_term (osAns : Option Int) (s : ProcState) : ProcState × Bool :=
  match popenPoll osAns s.popen with
  | (p2, some _) => ({ popen := p2, exit_status := p2.returncode }, true)
  | (p2, none) => ({ s with popen := p2 }, false)

/-- Iterate chk_term over a list of OS answers, keeping the final state. -/
def chkTermRun (s : ProcState) : List (Option Int) → ProcState
  | [] => s
  | a :: rest => chkTermRun (chk_term a s).1 rest

/-- Result of invoking the user callback: it returned a boolean, or it
raised an exception. -/
inductive CbResult where
  | ok (b : Bool)
  | exc
deriving DecidableEq, Repr

/-- The try/except around the callback call (lines 281-285): an exception
is printed and handled exactly as a False result. -/
def cbSuccess : CbResult → Bool
  | .ok b => b
  | .exc => false

/-- Python truthiness of the timeout attribute: None and 0 are falsy. -/
def timeoutTruthy : Option Int → Bool
  | none => false
  | some t => t != 0

/-- The timeout guard of the periodic checks (lines 235 and 276):
self.timeout and now - self.start_t > self.timeout. -/
def timeoutTrips (timeout : Option Int) (start_t now : Int) : Bool :=
  timeoutTruthy timeout && decide (now - start_t > timeout.getD 0)

/-- The mutable CallbackProcess state touched by _periodic_status_checks. -/
structure CbState where
  timed_out : Bool
  callback_failure : Bool
  last_callback : Int
deriving DecidableEq, Repr

/-- What one call of CallbackProcess._periodic_status_checks did: the new
state, the returned continue flag, and whether the callback and the kill
escalation were invoked. -/
structure TickEffects where
  state : CbState
  cont : Bool
  callbackInvoked : Bool
  killInvoked : Bool
deriving DecidableEq, Repr

/-- CallbackProcess._periodic_status_checks (lines 274-293): the timeout
check comes first and returns False immediately when it trips; otherwise,
when the cadence has elapsed, the callback is invoked (an exception
becoming a False result via cbSuccess); on failure the sticky flag is set,
kill_process is run and False is returned; on success last_callback is
updated; otherwise True is returned. -/
def periodic_status_checks (timeout : Option Int) (start_t freq now : Int)
    (outcome : CbResult) (s : CbState) : TickEffects :=
  if timeoutTrips timeout start_t now then
    { state := { s with timed_out := true }, cont := false,
      callbackInvoked := false, killInvoked := false }
  else if now - s.last_callback ≥ freq then
    if cbSuccess outcome = false then
      { state := { s with callback_failure := true }, cont := false,
        callbackInvoked := true, killInvoked := true }
    else
      { state := { s with last_callback := now }, cont := true,
        callbackInvoked := true, killInvoked := false }
  else
    { state := s, cont := true, callbackInvoked := false, killInvoked := false }

/-- What the post-run hook of TimeoutProcess did: whether SIGTERM was sent,
whether kill_process ran, and which exception (if any) was raised. -/
structure PostEffects where
  sigtermSent : Bool
  killInvoked : Bool
  raised : Option PyErr
deriving DecidableEq, Repr

/-- TimeoutProcess.do_timeout (lines 227-232): send SIGTERM, one direct
proc.poll() liveness re-check (stillAlive means poll() returned None),
kill_process when still alive (kr is its outcome; a CannotKill outcome
propagates), then TimedOut exactly when raise_on_timeout is set. -/
def do_timeout (stillAlive : Bool) (kr : KillResult) (raise_on_timeout : Bool) :
    PostEffects :=
  if stillAlive then
    match kr with
    | .cannotKill _ =>
      { sigtermSent := true, killInvoked := true, raised := some .cannotKill }
    | .dead _ =>
      { sigtermSent := true, killInvoked := true,
        raised := if raise_on_timeout then some .timedOut else none }
  else
    { sigtermSent := true, killInvoked := false,
      raised := if raise_on_timeout then some .timedOut else none }

/-- TimeoutProcess.post_checks (lines 219-221): run do_timeout exactly when
the timed_out flag is set. -/
def post_checks (timed_out stillAlive : Bool) (kr : KillResult)
    (raise_on_timeout : Bool) : PostEffects :=
  if timed_out then do_timeout stillAlive kr raise_on_timeout
  else { sigtermSent := false, killInvoked := false, raised := none }

/-! Helper lemmas about environment lookup. -/

theorem envLookup_append (a b : Env) (k : String) :
    envLookup (a ++ b) k =
      match envLookup a k with
      | some v => some v
      | none => envLookup b k := by
  induction a with
  | nil => rfl
  | cons p rest ih =>
    obtain ⟨k2, v⟩ := p
    by_cases h : k2 = k <;> simp [envLookup, h, ih]

theorem envLookup_filter_of_none (base ov : Env) (k : String)
    (h : envLookup ov k = none) :
    envLookup (base.filter (fun p => (envLookup ov p.1).isNone)) k
      = envLookup base k := by
  induction base with
  | nil => rfl
  | cons p rest ih =>
    obtain ⟨k2, v⟩ := p
    by_cases hk : k2 = k
    · subst hk
      simp [List.filter_cons, envLookup, h]
    · by_cases hp : (envLookup ov k2).isNone <;>
        simp [List.filter_cons, hp, envLookup, hk, ih]

theorem envLookup_filter_of_some (base ov : Env) (k v : String)
    (h : envLookup ov k = some v) :
    envLookup (base.filter (fun p => (envLookup ov p.1).isNone)) k = none := by
  induction base with
  | nil => rfl
  | cons p rest ih =>
    obtain ⟨k2, w⟩ := p
    by_cases hk : k2 = k
    · subst hk
      simp [List.filter_cons, envLookup, h, ih]
    · by_cases hp : (envLookup ov k2).isNone <;>
        simp [List.filter_cons, hp, envLookup, hk, ih]

theorem envLookup_dictUpdate (base ov : Env) (k : String) :
    envLookup (dictUpdate base ov) k =
      match envLookup ov k with
      | some v => some v
      | none => envLookup base k := by
  unfold dictUpdate
  rw [envLookup_append]
  cases hov : envLookup ov k with
  | none =>
    simp only [envLookup_filter_of_none base ov k hov, hov]
    cases envLookup base k <;> rfl
  | some v => simp [envLookup_filter_of_some base ov k v hov, hov]

/-! Claim theorems. -/

/-- Claim C1 (code_bug evidence): run_with_timeout never returns a result
tuple.  The construction Process(p, timeout=timeout) raises TypeError on
every input because Process.__init__ has no timeout parameter; in
particular the call fails on the spec's own concrete scenario of running
echo hello. -/
theorem run_with_timeout_typeerror :
    run_with_timeout [("PATH", "/usr/bin")] "echo hello" none (some 5)
        = .error (.typeError "timeout") ∧
    ∀ (host : Env) (cmdline : String) (env : Option Env) (t : Option Int),
      exceptIsOk (run_with_timeout host cmdline env t) = false := by
  refine ⟨rfl, ?_⟩
  intro host cmdline env t
  unfold run_with_timeout
  cases Program.init host (fun _ => true) (fun _ => true) cmdline env true false <;> rfl

/-- Claim C2 (code_bug evidence): with both streams captured, observing
termination triggers exactly one final read of each stream, appended to
the buffers, and the loop stops cleanly; but when either stream is not a
captured pipe, the unconditional final reads dereference None and raise
AttributeError, contradicting the claim's every-configuration safety. -/
theorem gather_output_final_drain :
    gather_output true true "tailO" "tailE" [⟨true, false, "a", "", true, true⟩]
        = .ok ("a" ++ "tailO", "tailE", some .terminated) ∧
    gather_output true false "x" "y" [⟨false, false, "", "", true, true⟩]
        = .error .attributeError ∧
    gather_output false true "x" "y" [⟨false, false, "", "", true, true⟩]
        = .error .attributeError := by
  refine ⟨rfl, rfl, rfl⟩

/-- Claim C8: send_signal returns true when the signal is delivered,
returns false exactly when the OS reports ESRCH (process id gone), and
re-raises the OS error for any other delivery failure. -/
theorem send_signal_spec (e : Nat) (h : e ≠ ESRCH) :
    send_signal .ok = .ok true ∧
    send_signal (.err ESRCH) = .ok false ∧
    send_signal (.err e) = .error (.osError e) ∧
    ∀ r : KillSyscall, send_signal r = .ok false ↔ r = .err ESRCH := by
  refine ⟨rfl, by simp [send_signal], by simp [send_signal, h], ?_⟩
  intro r
  cases r with
  | ok => simp [send_signal]
  | err e2 =>
    by_cases h2 : e2 = ESRCH <;> simp [send_signal, h2]

/-- Witness for send_signal_spec at errno 13 (EACCES). -/
theorem send_signal_spec_witness :
    send_signal (.err 13) = .error (.osError 13) :=
  (send_signal_spec 13 (by decide)).2.2.1

/-- Claim C10: a command line whose shell-word splitting yields no tokens
makes Program.init raise a bare IndexError (not ProcessError), for every
value of the strict flag and of the other arguments; the non-empty
argument-vector invariant is never explicitly validated. -/
theorem program_empty_cmdline_indexerror (host : Env) (ex xok : String → Bool)
    (cmdline : String) (env : Option Env) (u strict : Bool)
    (h : shlexSplit cmdline = []) :
    Program.init host ex xok cmdline env u strict = .error .indexError := by
  unfold Program.init
  rw [h]

/-- Witness for program_empty_cmdline_indexerror on a whitespace-only
command line with strict set. -/
theorem program_empty_cmdline_indexerror_witness :
    Program.init [] (fun _ => true) (fun _ => true) "   " none true true
      = .error .indexError :=
  program_empty_cmdline_indexerror [] (fun _ => true) (fun _ => true) "   "
    none true true (by decide)

/-- Claim C4 counterexample: with a present-but-empty override mapping
(and merging requested), the effective child environment is empty, not the
host environment unchanged as the claim states for empty overrides. -/
theorem effectiveEnv_empty_overrides :
    popenChildEnv [("HOME", "/root")]
        (effectiveEnv [("HOME", "/root")] (some []) true) = ([] : Env) ∧
    envLookup (popenChildEnv [("HOME", "/root")]
        (effectiveEnv [("HOME", "/root")] (some []) true)) "HOME" = none ∧
    envLookup [("HOME", "/root")] "HOME" = some "/root" := by
  refine ⟨rfl, rfl, rfl⟩

/-- Claim C4 amended: overrides absent (None) pass the host environment
unchanged; a present non-empty override mapping with merging requested
overlays the host environment (override bindings win, other host bindings
survive); a present non-empty mapping without merging, and a present empty
mapping regardless of the merge flag, become the entire child
environment. -/
theorem effectiveEnv_cases (host o : Env) (u : Bool) (k : String)
    (ho : o ≠ []) :
    popenChildEnv host (effectiveEnv host none u) = host ∧
    (u = true →
      envLookup (popenChildEnv host (effectiveEnv host (some o) u)) k
        = match envLookup o k with
          | some v => some v
          | none => envLookup host k) ∧
    (u = false → popenChildEnv host (effectiveEnv host (some o) u) = o) ∧
    popenChildEnv host (effectiveEnv host (some []) u) = ([] : Env) := by
  refine ⟨rfl, ?_, ?_, ?_⟩
  · intro hu
    subst hu
    have htr : envTruthy (some o) = true := by
      cases o with
      | nil => exact absurd rfl ho
      | cons p rest => rfl
    simp [effectiveEnv, htr, popenChildEnv, envLookup_dictUpdate]
  · intro hu
    subst hu
    simp [effectiveEnv, popenChildEnv]
  · simp [effectiveEnv, envTruthy, popenChildEnv]

/-- Witness for effectiveEnv_cases: overlaying host HOME=/root, SHELL=/sh
with the single override SHELL=/bash. -/
theorem effectiveEnv_cases_witness :
    envLookup (popenChildEnv [("HOME", "/root"), ("SHELL", "/sh")]
        (effectiveEnv [("HOME", "/root"), ("SHELL", "/sh")]
          (some [("SHELL", "/bash")]) true)) "SHELL"
      = match envLookup [("SHELL", "/bash")] "SHELL" with
        | some v => some v
        | none => envLookup [("HOME", "/root"), ("SHELL", "/sh")] "SHELL" :=
  (effectiveEnv_cases [("HOME", "/root"), ("SHELL", "/sh")] [("SHELL", "/bash")]
    true "SHELL" (by decide)).2.1 rfl

/-! Helper lemmas about the SIGKILL retry loop. -/

theorem killLoop_dead_or_exhaust (polls : Nat → Bool) :
    ∀ (fuel idx sent : Nat),
      (∃ n, killLoop polls idx sent fuel = .dead n) ∨
        killLoop polls idx sent fuel = .cannotKill (sent + fuel) := by
  intro fuel
  induction fuel with
  | zero => intro idx sent; exact Or.inr rfl
  | succ rem ih =>
    intro idx sent
    by_cases hp : polls idx = true
    · exact Or.inl ⟨sent, by simp [killLoop, hp]⟩
    · by_cases hr : rem = 0
      · subst hr
        refine Or.inr ?_
        simp [killLoop, hp]
      · rcases ih (idx + 1) (sent + 1) with ⟨n, hn⟩ | hc
        · exact Or.inl ⟨n, by simp [killLoop, hp, hr, hn]⟩
        · refine Or.inr ?_
          have harith : sent + 1 + rem = sent + (rem + 1) := by omega
          rw [harith] at hc
          simp [killLoop, hp, hr, hc]

theorem killLoop_never_dead (polls : Nat → Bool) (hp : ∀ i, polls i = false) :
    ∀ (fuel idx sent : Nat),
      killLoop polls idx sent fuel = .cannotKill (sent + fuel) := by
  intro fuel
  induction fuel with
  | zero => intro idx sent; rfl
  | succ rem ih =>
    intro idx sent
    by_cases hr : rem = 0
    · subst hr
      simp [killLoop, hp idx]
    · have := ih (idx + 1) (sent + 1)
      have harith : sent + 1 + rem = sent + (rem + 1) := by omega
      rw [harith] at this
      simp [killLoop, hp idx, hr, this]

/-- Claim C3: kill_process always terminates, either because a liveness
re-check reported the child dead, or by raising CannotKill after the retry
counter exceeded kill_lim; on a child whose liveness checks never report
dead, the CannotKill outcome is reached having sent kill_lim + 1 SIGKILLs,
not kill_lim. -/
theorem kill_process_terminates (polls : Nat → Bool) (kill_lim : Nat) :
    ((∃ n, kill_process polls kill_lim = .dead n) ∨
      kill_process polls kill_lim = .cannotKill (kill_lim + 1)) ∧
    ((∀ i, polls i = false) →
      kill_process polls kill_lim = .cannotKill (kill_lim + 1)) := by
  constructor
  · by_cases h0 : polls 0 = true
    · exact Or.inl ⟨0, by simp [kill_process, h0]⟩
    · by_cases h1 : polls 1 = true
      · exact Or.inl ⟨0, by simp [kill_process, h0, h1]⟩
      · by_cases h2 : polls 2 = true
        · exact Or.inl ⟨0, by simp [kill_process, h0, h1, h2]⟩
        · rcases killLoop_dead_or_exhaust polls (kill_lim + 1) 3 0 with ⟨n, hn⟩ | hc
          · exact Or.inl ⟨n, by simp [kill_process, h0, h1, h2, hn]⟩
          · refine Or.inr ?_
            rw [Nat.zero_add] at hc
            simp [kill_process, h0, h1, h2, hc]
  · intro hdead
    have := killLoop_never_dead polls hdead (kill_lim + 1) 3 0
    rw [Nat.zero_add] at this
    simp [kill_process, hdead 0, hdead 1, hdead 2, this]

/-- Witness for kill_process_terminates: a child that never dies with a
kill limit of 2 draws exactly 3 SIGKILLs and then CannotKill. -/
theorem kill_process_terminates_witness :
    kill_process (fun _ => false) 2 = .cannotKill 3 :=
  (kill_process_terminates (fun _ => false) 2).2 (fun _ => rfl)

/-- Claim C5 counterexample: on a tick where the timeout threshold is
exceeded and the health-check cadence has also elapsed, the callback is
not consulted — the timeout branch returns first — refuting the claim
that both checks run independently on every tick. -/
theorem periodic_checks_timeout_skips_callback :
    timeoutTrips (some 1) 0 5 = true ∧
    ((5 : Int) - 0 ≥ 1) ∧
    (periodic_status_checks (some 1) 0 1 5 (.ok true)
        ⟨false, false, 0⟩).callbackInvoked = false ∧
    (periodic_status_checks (some 1) 0 1 5 (.ok true)
        ⟨false, false, 0⟩).cont = false := by
  refine ⟨rfl, by decide, rfl, rfl⟩

/-- Claim C5 amended: the timeout check runs first each tick and, when it
trips, stops the loop without consulting the callback; the callback is
consulted exactly on ticks where the timeout has not tripped and the
cadence has elapsed; either a tripped timeout or a failed callback alone
stops the loop. -/
theorem periodic_checks_order (timeout : Option Int) (start_t freq now : Int)
    (o : CbResult) (s : CbState) :
    (timeoutTrips timeout start_t now = true →
      (periodic_status_checks timeout start_t freq now o s).callbackInvoked = false ∧
      (periodic_status_checks timeout start_t freq now o s).cont = false ∧
      (periodic_status_checks timeout start_t freq now o s).state.timed_out = true) ∧
    (timeoutTrips timeout start_t now = false →
      (now - s.last_callback ≥ freq →
        (periodic_status_checks timeout start_t freq now o s).callbackInvoked = true ∧
        (periodic_status_checks timeout start_t freq now o s).cont = cbSuccess o) ∧
      (¬ (now - s.last_callback ≥ freq) →
        (periodic_status_checks timeout start_t freq now o s).callbackInvoked = false ∧
        (periodic_status_checks timeout start_t freq now o s).cont = true ∧
        (periodic_status_checks timeout start_t freq now o s).state = s)) := by
  constructor
  · intro htrip
    simp [periodic_status_checks, htrip]
  · intro htrip
    constructor
    · intro hcad
      cases hs : cbSuccess o <;>
        simp [periodic_status_checks, htrip, hcad, hs]
    · intro hcad
      simp [periodic_status_checks, htrip, hcad]

/-- Witness for periodic_checks_order on a tick where the timeout has
tripped: the callback is skipped, the loop stops, the flag is set. -/
theorem periodic_checks_order_witness :
    (periodic_status_checks (some 2) 0 1 7 (.ok true)
        ⟨false, false, 0⟩).callbackInvoked = false ∧
    (periodic_status_checks (some 2) 0 1 7 (.ok true)
        ⟨false, false, 0⟩).cont = false ∧
    (periodic_status_checks (some 2) 0 1 7 (.ok true)
        ⟨false, false, 0⟩).state.timed_out = true :=
  (periodic_checks_order (some 2) 0 1 7 (.ok true) ⟨false, false, 0⟩).1 rfl

/-- Claim C6: an exception from the callback is absorbed and handled
exactly as a False result; on failure the sticky callback_failure flag is
set, the full kill escalation is invoked, and the tick signals stop; on
success the last-invocation timestamp is updated and the loop continues;
and the failure flag, once set, is never cleared by any later tick. -/
theorem callback_failure_handling (timeout : Option Int) (start_t freq now : Int)
    (o : CbResult) (s : CbState)
    (htrip : timeoutTrips timeout start_t now = false)
    (hcad : now - s.last_callback ≥ freq) :
    periodic_status_checks timeout start_t freq now .exc s
        = periodic_status_checks timeout start_t freq now (.ok false) s ∧
    (cbSuccess o = false →
      (periodic_status_checks timeout start_t freq now o s).state.callback_failure
          = true ∧
      (periodic_status_checks timeout start_t freq now o s).killInvoked = true ∧
      (periodic_status_checks timeout start_t freq now o s).cont = false) ∧
    (cbSuccess o = true →
      (periodic_status_checks timeout start_t freq now o s).state.last_callback
          = now ∧
      (periodic_status_checks timeout start_t freq now o s).killInvoked = false ∧
      (periodic_status_checks timeout start_t freq now o s).cont = true) ∧
    (∀ (t2 : Option Int) (st2 f2 n2 : Int) (o2 : CbResult) (s2 : CbState),
      s2.callback_failure = true →
      (periodic_status_checks t2 st2 f2 n2 o2 s2).state.callback_failure = true) := by
  refine ⟨rfl, ?_, ?_, ?_⟩
  · intro hf
    simp [periodic_status_checks, htrip, hcad, hf]
  · intro hsucc
    simp [periodic_status_checks, htrip, hcad, hsucc]
  · intro t2 st2 f2 n2 o2 s2 h2
    unfold periodic_status_checks
    split
    · exact h2
    · split
      · split
        · rfl
        · exact h2
      · exact h2

/-- Witness for callback_failure_handling: a raising callback on a live
cadence tick behaves exactly like one returning False. -/
theorem callback_failure_handling_witness :
    periodic_status_checks none 0 1 5 .exc ⟨false, false, 0⟩
        = periodic_status_checks none 0 1 5 (.ok false) ⟨false, false, 0⟩ :=
  (callback_failure_handling none 0 1 5 .exc ⟨false, false, 0⟩ rfl (by decide)).1

/-- Claim C7: when the timed-out flag is set, post_checks sends SIGTERM,
re-checks liveness once, runs the kill escalation exactly when the child
is still alive, and raises TimedOut after that cleanup exactly when
raise_on_timeout is set (provided the escalation itself did not raise
CannotKill); when the flag is clear, nothing is sent, nothing killed,
nothing raised. -/
theorem post_checks_timeout_cleanup (stillAlive raise_on_timeout : Bool)
    (kr : KillResult) (timed_out : Bool) (h : timed_out = true) :
    (post_checks timed_out stillAlive kr raise_on_timeout).sigtermSent = true ∧
    (post_checks timed_out stillAlive kr raise_on_timeout).killInvoked
        = stillAlive ∧
    ((stillAlive = false ∨ ∃ n, kr = .dead n) →
      (post_checks timed_out stillAlive kr raise_on_timeout).raised
        = if raise_on_timeout then some .timedOut else none) ∧
    (∀ (sa2 r2 : Bool) (kr2 : KillResult),
      post_checks false sa2 kr2 r2
        = { sigtermSent := false, killInvoked := false, raised := none }) := by
  subst h
  refine ⟨?_, ?_, ?_, ?_⟩
  · cases stillAlive <;> cases kr <;> simp [post_checks, do_timeout]
  · cases stillAlive <;> cases kr <;> simp [post_checks, do_timeout]
  · rintro (hsa | ⟨n, hkr⟩)
    · subst hsa; simp [post_checks, do_timeout]
    · subst hkr; cases stillAlive <;> simp [post_checks, do_timeout]
  · intro sa2 r2 kr2
    rfl

/-- Witness for post_checks_timeout_cleanup: a timed-out run whose child
died before the re-check, with raising requested, ends in TimedOut. -/
theorem post_checks_timeout_cleanup_witness :
    (post_checks true false (.dead 0) true).raised = some .timedOut :=
  (post_checks_timeout_cleanup false true (.dead 0) true rfl).2.2.1 (Or.inl rfl)

/-! Helper lemmas about Popen.poll caching and chk_term. -/

theorem popenPoll_some (a : Option Int) (p p2 : PopenState) (c : Int)
    (h : popenPoll a p = (p2, some c)) : p2.returncode = some c := by
  unfold popenPoll at h
  cases hp : p.returncode with
  | some c2 =>
    rw [hp] at h
    obtain ⟨h1, h2⟩ := Prod.mk.injEq .. ▸ h
    rw [← h1, hp, h2]
  | none =>
    rw [hp] at h
    cases a with
    | some c2 =>
      obtain ⟨h1, h2⟩ := Prod.mk.injEq .. ▸ h
      rw [← h1]
      simpa using h2
    | none => simp at h

theorem chk_term_true_state (s : ProcState) (a : Option Int)
    (h : (chk_term a s).2 = true) :
    ∃ c, (chk_term a s).1.popen.returncode = some c ∧
      (chk_term a s).1.exit_status = some c := by
  rcases hpp : popenPoll a s.popen with ⟨p2, r⟩
  cases r with
  | none =>
    have hf : (chk_term a s).2 = false := by
      unfold chk_term
      rw [hpp]
    rw [hf] at h
    exact Bool.noConfusion h
  | some c =>
    have hr : p2.returncode = some c := popenPoll_some a s.popen p2 c hpp
    have h1 : (chk_term a s).1 = { popen := p2, exit_status := p2.returncode } := by
      unfold chk_term
      rw [hpp]
    refine ⟨c, ?_, ?_⟩ <;> rw [h1] <;> exact hr

theorem chk_term_fixed (s : ProcState) (c : Int)
    (h1 : s.popen.returncode = some c) (h2 : s.exit_status = some c)
    (b : Option Int) : chk_term b s = (s, true) := by
  have hp : popenPoll b s.popen = (s.popen, some c) := by
    unfold popenPoll
    rw [h1]
  unfold chk_term
  rw [hp]
  obtain ⟨pop, es⟩ := s
  simp_all

theorem chkTermRun_fixed (s : ProcState) (c : Int)
    (h1 : s.popen.returncode = some c) (h2 : s.exit_status = some c) :
    ∀ l : List (Option Int), chkTermRun s l = s := by
  intro l
  induction l with
  | nil => rfl
  | cons x xs ih =>
    rw [chkTermRun, chk_term_fixed s c h1 h2 x]
    exact ih

/-- Claim C9: once chk_term first reports the child terminated, the
recorded exit status equals the cached Popen return code; and whatever the
OS answers afterwards, every subsequent chk_term call leaves the state
unchanged, reports terminated again, and keeps the same exit status —
the stored exit status is never changed after it is first set. -/
theorem chk_term_idempotent (s : ProcState) (a : Option Int)
    (h : (chk_term a s).2 = true) :
    (chk_term a s).1.exit_status = (chk_term a s).1.popen.returncode ∧
    ((chk_term a s).1.popen.returncode).isSome = true ∧
    ∀ (l : List (Option Int)) (b : Option Int),
      chkTermRun (chk_term a s).1 l = (chk_term a s).1 ∧
      (chk_term b (chkTermRun (chk_term a s).1 l)).2 = true ∧
      (chk_term b (chkTermRun (chk_term a s).1 l)).1 = (chk_term a s).1 := by
  obtain ⟨c, hc1, hc2⟩ := chk_term_true_state s a h
  refine ⟨by rw [hc1, hc2], by rw [hc1]; rfl, ?_⟩
  intro l b
  have hrun : chkTermRun (chk_term a s).1 l = (chk_term a s).1 :=
    chkTermRun_fixed (chk_term a s).1 c hc1 hc2 l
  refine ⟨hrun, ?_, ?_⟩
  · rw [hrun, chk_term_fixed (chk_term a s).1 c hc1 hc2 b]
  · rw [hrun, chk_term_fixed (chk_term a s).1 c hc1 hc2 b]

/-- Witness for chk_term_idempotent: a child first observed exited with
code 0 keeps state, verdict and exit status across later polls. -/
theorem chk_term_idempotent_witness :
    chkTermRun (chk_term (some 0) ⟨⟨none⟩, none⟩).1 [none, some 7]
        = (chk_term (some 0) ⟨⟨none⟩, none⟩).1 ∧
    (chk_term (some 9) (chkTermRun (chk_term (some 0) ⟨⟨none⟩, none⟩).1
        [none, some 7])).2 = true :=
  ⟨((chk_term_idempotent ⟨⟨none⟩, none⟩ (some 0) rfl).2.2 [none, some 7] (some 9)).1,
   ((chk_term_idempotent ⟨⟨none⟩, none⟩ (some 0) rfl).2.2 [none, some 7] (some 9)).2.1⟩

end PyProc
